import Mathlib

/-!
Shallow embedding of the Slack-bot query pipeline (src/main.go and the
two-command variant in src/unnamed/part_000).

The pipeline is per-request and straight-line: each handler receives the
extracted `message` parameter, calls the NLU collaborator (wit.ai), marshals
its response to JSON, runs a fixed gjson path lookup over that document to
refine the query, calls the Wolfram collaborator, and replies.  We model the
collaborators as inputs to the handler: the NLU step outcome is a
`WitOutcome` (call failure, marshal failure, or a JSON document), and the
Wolfram collaborators are functions from the query to a result or error.
Each handler returns a record of the log events it emitted, the collaborator
calls it made, the replies it sent (in order), and whether the Go code would
panic (out-of-bounds slice index).
-/

namespace SlackBot

/-- JSON documents, modelling the serialized wit.ai response produced by
`json.MarshalIndent` and consumed by `gjson.Get`.  Numbers are modelled as
integers; no claim depends on float formatting. -/
inductive Json where
  | null
  | bool (b : Bool)
  | num (n : Int)
  | str (s : String)
  | arr (elems : List Json)
  | obj (fields : List (String × Json))

/-- First field with the given key in a JSON object, as gjson key lookup. -/
def lookupField : List (String × Json) → String → Option Json
  | [], _ => none
  | (k, v) :: rest, key => if k = key then some v else lookupField rest key

/-- Decimal value of a digit list, accumulator style. -/
def digitsVal (acc : Nat) : List Char → Nat
  | [] => acc
  | c :: rest => digitsVal (acc * 10 + (c.toNat - 48)) rest

/-- Parses a gjson path component as an array index: all-digit and
non-empty, as gjson treats integer components over arrays. -/
def parseIndex (s : String) : Option Nat :=
  match s.data with
  | [] => none
  | c :: rest =>
      if (c :: rest).all Char.isDigit then some (digitsVal 0 (c :: rest)) else none

/-- One gjson path component applied to a value: key lookup on objects,
numeric index on arrays, nothing on scalars. -/
def getComp : Json → String → Option Json
  | Json.obj fields, c => lookupField fields c
  | Json.arr elems, c =>
      match parseIndex c with
      | some n => elems.get? n
      | none => none
  | _, _ => none

/-- gjson lookup of a dot-separated path (already split into components).
Returns `none` exactly when `gjson.Get(...).Exists()` is false. -/
def gjsonGet : Json → List String → Option Json
  | j, [] => some j
  | j, c :: rest =>
      match getComp j c with
      | some v => gjsonGet v rest
      | none => none

mutual

/-- Compact raw rendering of a JSON value (stands in for gjson `Result.Raw`
on composite values; the source document indentation is not modelled). -/
def renderJson : Json → String
  | Json.null => "null"
  | Json.bool true => "true"
  | Json.bool false => "false"
  | Json.num n => toString n
  | Json.str s => "\"" ++ s ++ "\""
  | Json.arr elems => "[" ++ renderElems elems ++ "]"
  | Json.obj fields => "\x7b" ++ renderFields fields ++ "\x7d"

/-- Renders array elements, comma separated. -/
def renderElems : List Json → String
  | [] => ""
  | [x] => renderJson x
  | x :: y :: rest => renderJson x ++ "," ++ renderElems (y :: rest)

/-- Renders object fields, comma separated. -/
def renderFields : List (String × Json) → String
  | [] => ""
  | [(k, v)] => "\"" ++ k ++ "\":" ++ renderJson v
  | (k, v) :: f :: rest => "\"" ++ k ++ "\":" ++ renderJson v ++ "," ++ renderFields (f :: rest)

end

/-- gjson `Result.String()`: empty for null, "true"/"false" for booleans,
the number text for numbers, the unquoted string for strings, and the raw
JSON text for arrays and objects. -/
def resultString : Json → String
  | Json.null => ""
  | Json.bool true => "true"
  | Json.bool false => "false"
  | Json.num n => toString n
  | Json.str s => s
  | Json.arr elems => renderJson (Json.arr elems)
  | Json.obj fields => renderJson (Json.obj fields)

/-- The fixed gjson path both handlers look up
(`entities.wit$wolfram_search_query:wolfram_search_query.0.value`),
split at the dots. -/
def entityPath : List String :=
  ["entities", "wit$wolfram_search_query:wolfram_search_query", "0", "value"]

/-- Entity extraction (src/main.go lines 62-66, part_000 lines 99-103):
`answer := query` as fallback, overwritten by `value.String()` when
`value.Exists()`. -/
def refineQuery (query : String) (doc : Json) : String :=
  match gjsonGet doc entityPath with
  | some v => resultString v
  | none => query

/-- Outcome of the NLU step as seen by a handler: `client.Parse` failed,
parse succeeded but `json.MarshalIndent` failed, or both succeeded yielding
the marshaled document. -/
inductive WitOutcome where
  | parseErr
  | marshalErr
  | ok (doc : Json)

/-- go-wolfram unit system argument (`wolfram.Metric` / `wolfram.Imperial`). -/
inductive WUnit where
  | imperial
  | metric
deriving DecidableEq

/-- One call to `GetSpokentAnswerQuery` with its three arguments. -/
structure SpokenCall where
  query : String
  units : WUnit
  maxChars : Nat
deriving DecidableEq

/-- The `log.Printf` sites of the two handlers. -/
inductive LogEv where
  | witError
  | marshalError
  | wolframError
  | wolframFullError
deriving DecidableEq

/-- Fixed reply text of the spoken handler NLU-failure branch. -/
def NLUUnavailableMsg : String := "Sorry, I\x27m having trouble understanding right now."

/-- Fixed reply text of the spoken handler marshal-failure branch. -/
def MarshalFailMsg : String := "Sorry, I\x27m having trouble processing the response."

/-- Fixed reply text of the spoken handler Wolfram-failure branch. -/
def KnowledgeUnavailableMsg : String := "Sorry, I couldn\x27t get an answer from Wolfram Alpha."

/-- Fixed reply text of the full handler Wolfram-failure branch. -/
def FullUnavailableMsg : String := "Sorry, I couldn\x27t get a full report from Wolfram Alpha."

/-- Fixed reply text of the full handler unusable-report branch. -/
def KnowledgeNoAnswerMsg : String := "Sorry, Wolfram Alpha couldn\x27t find an answer for that."

/-- Interim acknowledgement sent by the full handler before the NLU call. -/
def ThinkingMsg : String := "Thinking..."

/-- Observable trace of one spoken-mode handler invocation. -/
structure SpokenRun where
  logs : List LogEv
  calls : List SpokenCall
  replies : List String
deriving DecidableEq

/-- Wolfram spoken query and reply (src/main.go lines 68-75), given the
refined query `answer`; `wolfram` is the behaviour of
`GetSpokentAnswerQuery`. -/
def spokenQueryStage (answer : String)
    (wolfram : String → WUnit → Nat → Except Unit String) : SpokenRun :=
  match wolfram answer WUnit.metric 1000 with
  | Except.error _ =>
      { logs := [LogEv.wolframError]
        calls := [{ query := answer, units := WUnit.metric, maxChars := 1000 }]
        replies := [KnowledgeUnavailableMsg] }
  | Except.ok res =>
      { logs := []
        calls := [{ query := answer, units := WUnit.metric, maxChars := 1000 }]
        replies := [res] }

/-- The `query for bot - <message>` handler (src/main.go lines 42-75). -/
def spokenHandler (query : String) (wit : WitOutcome)
    (wolfram : String → WUnit → Nat → Except Unit String) : SpokenRun :=
  match wit with
  | WitOutcome.parseErr =>
      { logs := [LogEv.witError], calls := [], replies := [NLUUnavailableMsg] }
  | WitOutcome.marshalErr =>
      { logs := [LogEv.marshalError], calls := [], replies := [MarshalFailMsg] }
  | WitOutcome.ok doc => spokenQueryStage (refineQuery query doc) wolfram

/-- go-wolfram `SubPod` (the `Plaintext` field is all the code reads). -/
structure SubPod where
  Plaintext : String
deriving DecidableEq

/-- go-wolfram `Pod`. -/
structure Pod where
  Title : String
  SubPods : List SubPod
deriving DecidableEq

/-- go-wolfram `QueryResult`; `Success` is a string field in the library,
compared against the literal "false" by the handler. -/
structure QueryResult where
  Success : String
  Pods : List Pod
deriving DecidableEq

/-- Observable trace of one full-mode handler invocation.  `formatterArgs`
records the pod bound by `pod := res.Pods[1]` when control reaches the
formatting lines 121-124; `panicked` is true when the Go code would panic on
an out-of-bounds slice index. -/
structure FullRun where
  logs : List LogEv
  fullCalls : List String
  formatterArgs : List Pod
  replies : List String
  panicked : Bool
deriving DecidableEq

/-- The formatted reply built in part_000 lines 122-124: bold title line,
then the first subpod text in a code fence. -/
def formatReply (pod : Pod) (sp : SubPod) : String :=
  "*" ++ pod.Title ++ "*\n" ++ "```" ++ sp.Plaintext ++ "```"

/-- Wolfram full query and everything after it (part_000 lines 106-127),
given the refined query `answer`. -/
def fullQueryStage (answer : String) (wolfram : String → Except Unit QueryResult) : FullRun :=
  match wolfram answer with
  | Except.error _ =>
      { logs := [LogEv.wolframFullError], fullCalls := [answer], formatterArgs := []
        replies := [ThinkingMsg, FullUnavailableMsg], panicked := false }
  | Except.ok res =>
      if res.Success = "false" ∨ res.Pods.length < 2 then
        { logs := [], fullCalls := [answer], formatterArgs := []
          replies := [ThinkingMsg, KnowledgeNoAnswerMsg], panicked := false }
      else
        match res.Pods.get? 1 with
        | none =>
            { logs := [], fullCalls := [answer], formatterArgs := []
              replies := [ThinkingMsg], panicked := true }
        | some pod =>
            match pod.SubPods.get? 0 with
            | none =>
                { logs := [], fullCalls := [answer], formatterArgs := [pod]
                  replies := [ThinkingMsg], panicked := true }
            | some sp =>
                { logs := [], fullCalls := [answer], formatterArgs := [pod]
                  replies := [ThinkingMsg, formatReply pod sp], panicked := false }

/-- The `full query for bot - <message>` handler (part_000 lines 82-127).
The acknowledgement is sent before the NLU call; a marshal failure is
discarded (`data, _ :=`), leaving `rough = ""` whose gjson lookup finds
nothing, so the fallback `answer = query` is used and the pipeline
continues. -/
def fullHandler (query : String) (wit : WitOutcome)
    (wolfram : String → Except Unit QueryResult) : FullRun :=
  match wit with
  | WitOutcome.parseErr =>
      { logs := [LogEv.witError], fullCalls := [], formatterArgs := []
        replies := [ThinkingMsg, NLUUnavailableMsg], panicked := false }
  | WitOutcome.marshalErr => fullQueryStage query wolfram
  | WitOutcome.ok doc => fullQueryStage (refineQuery query doc) wolfram

/-- Fixture: marshaled wit.ai document carrying a value at the entity path. -/
def docWithValue : Json :=
  Json.obj [("entities", Json.obj
    [("wit$wolfram_search_query:wolfram_search_query", Json.arr
      [Json.obj [("value", Json.str "capital of france"), ("confidence", Json.num 1)]])])]

/-- Fixture: marshaled wit.ai document with no entity at the path. -/
def docNoValue : Json :=
  Json.obj [("entities", Json.obj []), ("text", Json.str "asdkjasd")]

/-- Fixture: document whose entity value is the empty string. -/
def docEmptyValue : Json :=
  Json.obj [("entities", Json.obj
    [("wit$wolfram_search_query:wolfram_search_query", Json.arr
      [Json.obj [("value", Json.str "")]])])]

/-- Fixture: a usable full report (input interpretation pod, then result). -/
def goodRes : QueryResult :=
  { Success := "true"
    Pods := [{ Title := "Input interpretation", SubPods := [{ Plaintext := "weather in new york" }] },
             { Title := "Weather", SubPods := [{ Plaintext := "72 F" }] }] }

/-- Fixture: report whose success field is neither "true" nor "false". -/
def susRes : QueryResult :=
  { Success := ""
    Pods := [{ Title := "Input interpretation", SubPods := [{ Plaintext := "x" }] },
             { Title := "Result", SubPods := [{ Plaintext := "42" }] }] }

/-- Fixture: report passing the usability check whose second pod has no
subpods. -/
def noSubPodRes : QueryResult :=
  { Success := "true"
    Pods := [{ Title := "Input interpretation", SubPods := [{ Plaintext := "x" }] },
             { Title := "Result", SubPods := [] }] }

/-- Fixture spoken collaborator: always answers "Paris". -/
def wsEx : String → WUnit → Nat → Except Unit String := fun _ _ _ => Except.ok "Paris"

/-- Fixture spoken collaborator: always fails. -/
def wsErr : String → WUnit → Nat → Except Unit String := fun _ _ _ => Except.error ()

/-- Fixture full collaborator: always returns the usable report. -/
def wfEx : String → Except Unit QueryResult := fun _ => Except.ok goodRes

/-- Fixture full collaborator: always fails. -/
def wfErr : String → Except Unit QueryResult := fun _ => Except.error ()

/-- Fixture: report with the success field set to "false". -/
def falseRes : QueryResult := { Success := "false", Pods := [] }

/-- Helper: the spoken stage always records exactly one knowledge call,
with the refined query, the metric unit system and the 1000-character
cap. -/
lemma spokenQueryStage_calls (a : String)
    (ws : String → WUnit → Nat → Except Unit String) :
    (spokenQueryStage a ws).calls =
      [{ query := a, units := WUnit.metric, maxChars := 1000 }] := by
  unfold spokenQueryStage
  split <;> rfl

/-- Helper: the spoken stage always sends exactly one reply. -/
lemma spokenQueryStage_len (a : String)
    (ws : String → WUnit → Nat → Except Unit String) :
    (spokenQueryStage a ws).replies.length = 1 := by
  unfold spokenQueryStage
  split <;> rfl

/-- Helper: the Wolfram full-query stage always records exactly one knowledge
call, with the refined query. -/
lemma fullQueryStage_calls (a : String) (wf : String → Except Unit QueryResult) :
    (fullQueryStage a wf).fullCalls = [a] := by
  unfold fullQueryStage
  split
  · rfl
  · split
    · rfl
    · split
      · rfl
      · split <;> rfl

/-- Helper: the full-query stage reply list always starts with the
acknowledgement. -/
lemma fullQueryStage_replies_head (a : String) (wf : String → Except Unit QueryResult) :
    ∃ rest, (fullQueryStage a wf).replies = ThinkingMsg :: rest := by
  unfold fullQueryStage
  split
  · exact ⟨_, rfl⟩
  · split
    · exact ⟨_, rfl⟩
    · split
      · exact ⟨_, rfl⟩
      · split <;> exact ⟨_, rfl⟩

/-- Helper: when the usability check fails, the stage replies with the
no-answer message and the formatter is not reached. -/
lemma fullQueryStage_guard_fail (a : String) (res : QueryResult)
    (h : res.Success = "false" ∨ res.Pods.length < 2) :
    fullQueryStage a (fun _ => Except.ok res) =
      { logs := [], fullCalls := [a], formatterArgs := []
        replies := [ThinkingMsg, KnowledgeNoAnswerMsg], panicked := false } := by
  unfold fullQueryStage
  simp only []
  rw [if_pos h]

/-- Helper: when the usability check passes and the second pod has a first
subpod, the stage formats that pod. -/
lemma fullQueryStage_format (a : String) (res : QueryResult) (pod : Pod) (sp : SubPod)
    (hS : res.Success ≠ "false") (hlen : ¬ res.Pods.length < 2)
    (hpod : res.Pods.get? 1 = some pod) (hsp : pod.SubPods.get? 0 = some sp) :
    fullQueryStage a (fun _ => Except.ok res) =
      { logs := [], fullCalls := [a], formatterArgs := [pod]
        replies := [ThinkingMsg, formatReply pod sp], panicked := false } := by
  unfold fullQueryStage
  simp only []
  rw [if_neg (not_or.mpr ⟨hS, hlen⟩), hpod]
  simp only []
  rw [hsp]

/-- Helper: guard behaviour of the full-query stage, both directions. -/
lemma fullQueryStage_guard (a : String) (res : QueryResult) :
    ((res.Success = "false" ∨ res.Pods.length < 2) →
        (fullQueryStage a (fun _ => Except.ok res)).replies = [ThinkingMsg, KnowledgeNoAnswerMsg] ∧
        (fullQueryStage a (fun _ => Except.ok res)).formatterArgs = []) ∧
    (∀ pod, pod ∈ (fullQueryStage a (fun _ => Except.ok res)).formatterArgs →
        res.Success ≠ "false" ∧ 2 ≤ res.Pods.length) := by
  by_cases h : res.Success = "false" ∨ res.Pods.length < 2
  · rw [fullQueryStage_guard_fail a res h]
    exact ⟨fun _ => ⟨rfl, rfl⟩, fun pod hmem => absurd hmem (List.not_mem_nil pod)⟩
  · obtain ⟨hS, hlen⟩ := not_or.mp h
    exact ⟨fun hcontra => absurd hcontra h, fun pod _ => ⟨hS, Nat.not_lt.mp hlen⟩⟩

/-- Helper: reply counts of the full-query stage, split on the panic flag. -/
lemma fullQueryStage_reply_shape (a : String) (wf : String → Except Unit QueryResult) :
    ((fullQueryStage a wf).panicked = false → (fullQueryStage a wf).replies.length = 2) ∧
    ((fullQueryStage a wf).panicked = true → (fullQueryStage a wf).replies = [ThinkingMsg]) := by
  unfold fullQueryStage
  split
  · exact ⟨fun _ => rfl, fun h => nomatch h⟩
  · split
    · exact ⟨fun _ => rfl, fun h => nomatch h⟩
    · split
      · exact ⟨(fun h => nomatch h), fun _ => rfl⟩
      · split
        · exact ⟨(fun h => nomatch h), fun _ => rfl⟩
        · exact ⟨fun _ => rfl, fun h => nomatch h⟩

/-- Claim C1: entity extraction produces the refined query as follows: when
the marshaled NLU document has a value at the fixed entity path, the refined
query is the string form of that value, independent of the original query
text; when no value exists at that path, the refined query is the original
user query exactly. -/
theorem refineQuery_spec (q q2 : String) (doc : Json) :
    (∀ v, gjsonGet doc entityPath = some v →
        refineQuery q doc = resultString v ∧ refineQuery q doc = refineQuery q2 doc) ∧
    (gjsonGet doc entityPath = none → refineQuery q doc = q) := by
  constructor
  · intro v hv
    constructor <;> simp [refineQuery, hv]
  · intro h
    simp [refineQuery, h]

/-- Witness for C1: a document carrying the entity value and a document
without one, at concrete inputs. -/
theorem refineQuery_spec_witness :
    refineQuery "orig" docWithValue = "capital of france" ∧
    refineQuery "orig" docNoValue = "orig" :=
  ⟨((refineQuery_spec "orig" "other" docWithValue).1 (Json.str "capital of france") rfl).1,
    (refineQuery_spec "orig" "other" docNoValue).2 rfl⟩

/-- Claim C2 counterexample: a report whose success field is the empty
string (hence not the string "true", failing the claimed invariant) with two
pods is formatted rather than answered with the fixed no-answer message: the
handler reaches the formatter, refuting the claim as stated. -/
theorem fullHandler_formats_nonTrueSuccess :
    susRes.Success ≠ "true" ∧
    (fullHandler "q" (WitOutcome.ok Json.null) (fun _ => Except.ok susRes)).formatterArgs ≠ [] ∧
    (fullHandler "q" (WitOutcome.ok Json.null) (fun _ => Except.ok susRes)).replies ≠
      [ThinkingMsg, KnowledgeNoAnswerMsg] := by
  refine ⟨by decide, by decide, by decide⟩

/-- Claim C2 as amended: the usability check the code applies is success
field not equal to the string "false" and at least 2 pods.  When a
successful report fails that check, the handler replies with the fixed
no-answer message and the formatter is never reached; the formatter is only
ever reached on a report passing that check. -/
theorem fullHandler_noAnswer_guard (q : String) (wit : WitOutcome) (res : QueryResult)
    (hwit : wit ≠ WitOutcome.parseErr) :
    ((res.Success = "false" ∨ res.Pods.length < 2) →
        (fullHandler q wit (fun _ => Except.ok res)).replies = [ThinkingMsg, KnowledgeNoAnswerMsg] ∧
        (fullHandler q wit (fun _ => Except.ok res)).formatterArgs = []) ∧
    (∀ pod, pod ∈ (fullHandler q wit (fun _ => Except.ok res)).formatterArgs →
        res.Success ≠ "false" ∧ 2 ≤ res.Pods.length) := by
  cases wit with
  | parseErr => exact absurd rfl hwit
  | marshalErr => exact fullQueryStage_guard q res
  | ok doc => exact fullQueryStage_guard (refineQuery q doc) res

/-- Witness for C2 at a concrete failing report. -/
theorem fullHandler_noAnswer_guard_witness :
    (fullHandler "q" (WitOutcome.ok Json.null) (fun _ => Except.ok falseRes)).replies =
      [ThinkingMsg, KnowledgeNoAnswerMsg] :=
  ((fullHandler_noAnswer_guard "q" (WitOutcome.ok Json.null) falseRes
      (fun h => WitOutcome.noConfusion h)).1 (Or.inl rfl)).1

/-- Claim C3: the full-mode reply is built exclusively from the pod at index
1: the acknowledgement followed by a bolded rendering of that pod title and
that pod first subpod text in a code fence; the reply is fully determined by
those two fields, so no other pod and no later subpod can appear. -/
theorem fullHandler_formats_second_pod (q : String) (doc : Json) (res : QueryResult)
    (pod : Pod) (sp : SubPod)
    (hS : res.Success ≠ "false") (hlen : 2 ≤ res.Pods.length)
    (hpod : res.Pods.get? 1 = some pod) (hsp : pod.SubPods.get? 0 = some sp) :
    (fullHandler q (WitOutcome.ok doc) (fun _ => Except.ok res)).replies =
      [ThinkingMsg, "*" ++ pod.Title ++ "*\n" ++ "```" ++ sp.Plaintext ++ "```"] := by
  have h := fullQueryStage_format (refineQuery q doc) res pod sp hS (by omega) hpod hsp
  show (fullQueryStage (refineQuery q doc) (fun _ => Except.ok res)).replies = _
  rw [h]
  rfl

/-- Witness for C3: the weather scenario report at concrete inputs. -/
theorem fullHandler_formats_second_pod_witness :
    (fullHandler "weather in new york" (WitOutcome.ok docNoValue)
        (fun _ => Except.ok goodRes)).replies =
      [ThinkingMsg, "*" ++ "Weather" ++ "*\n" ++ "```" ++ "72 F" ++ "```"] :=
  fullHandler_formats_second_pod "weather in new york" docNoValue goodRes
    { Title := "Weather", SubPods := [{ Plaintext := "72 F" }] } { Plaintext := "72 F" }
    (by decide) (by decide) rfl rfl

/-- Claim C4 counterexample: a full-mode invocation emits two replies (the
acknowledgement and the terminal reply), refuting never more than one reply
per invocation in either command mode. -/
theorem fullHandler_two_replies :
    1 < (fullHandler "q" WitOutcome.parseErr wfEx).replies.length := by decide

/-- Claim C4 as amended: every spoken-mode invocation produces exactly one
reply; every full-mode invocation that does not hit the out-of-bounds panic
produces exactly two replies, the acknowledgement followed by one terminal
reply; on the panic path only the acknowledgement has been sent. -/
theorem handler_reply_counts (q : String) (wit : WitOutcome)
    (ws : String → WUnit → Nat → Except Unit String)
    (wf : String → Except Unit QueryResult) :
    (spokenHandler q wit ws).replies.length = 1 ∧
    ((fullHandler q wit wf).panicked = false → (fullHandler q wit wf).replies.length = 2) ∧
    ((fullHandler q wit wf).panicked = true → (fullHandler q wit wf).replies = [ThinkingMsg]) := by
  refine ⟨?_, ?_, ?_⟩
  · cases wit with
    | parseErr => rfl
    | marshalErr => rfl
    | ok doc => exact spokenQueryStage_len (refineQuery q doc) ws
  · cases wit with
    | parseErr => exact fun _ => rfl
    | marshalErr => exact (fullQueryStage_reply_shape q wf).1
    | ok doc => exact (fullQueryStage_reply_shape (refineQuery q doc) wf).1
  · cases wit with
    | parseErr => exact fun h => nomatch h
    | marshalErr => exact (fullQueryStage_reply_shape q wf).2
    | ok doc => exact (fullQueryStage_reply_shape (refineQuery q doc) wf).2

/-- Witness for C4 at concrete inputs: one spoken reply, two full-mode
replies. -/
theorem handler_reply_counts_witness :
    (spokenHandler "q" WitOutcome.parseErr wsEx).replies.length = 1 ∧
    (fullHandler "q" WitOutcome.parseErr wfEx).replies.length = 2 :=
  ⟨(handler_reply_counts "q" WitOutcome.parseErr wsEx wfEx).1,
    (handler_reply_counts "q" WitOutcome.parseErr wsEx wfEx).2.1 rfl⟩

/-- Claim C5 counterexample: a serialization failure in the spoken handler
replies with the fixed processing-trouble message, which differs from the
understanding-trouble message the claim requires. -/
theorem spokenHandler_marshal_reply :
    (spokenHandler "q" WitOutcome.marshalErr wsEx).replies = [MarshalFailMsg] ∧
    MarshalFailMsg ≠ NLUUnavailableMsg :=
  ⟨rfl, by decide⟩

/-- Claim C5 as amended: an NLU call failure stops both handlers with the
understanding-trouble reply and no knowledge call; a serialization failure
stops the spoken handler with the distinct processing-trouble reply and no
knowledge call, while the full handler ignores it and continues the
pipeline with the original query. -/
theorem nlu_failure_paths (q : String)
    (ws : String → WUnit → Nat → Except Unit String)
    (wf : String → Except Unit QueryResult) :
    (spokenHandler q WitOutcome.parseErr ws).replies = [NLUUnavailableMsg] ∧
    (spokenHandler q WitOutcome.parseErr ws).calls = [] ∧
    (fullHandler q WitOutcome.parseErr wf).replies = [ThinkingMsg, NLUUnavailableMsg] ∧
    (fullHandler q WitOutcome.parseErr wf).fullCalls = [] ∧
    (spokenHandler q WitOutcome.marshalErr ws).replies = [MarshalFailMsg] ∧
    (spokenHandler q WitOutcome.marshalErr ws).calls = [] ∧
    (fullHandler q WitOutcome.marshalErr wf).fullCalls = [q] :=
  ⟨rfl, rfl, rfl, rfl, rfl, rfl, fullQueryStage_calls q wf⟩

/-- Claim C6 counterexample: the full handler drops a serialization failure
silently: nothing is logged, no failure reply is sent, and the pipeline
continues to the knowledge query and a normal formatted reply. -/
theorem fullHandler_marshal_ignored :
    (fullHandler "q" WitOutcome.marshalErr wfEx).logs = [] ∧
    (fullHandler "q" WitOutcome.marshalErr wfEx).fullCalls = ["q"] ∧
    (fullHandler "q" WitOutcome.marshalErr wfEx).replies =
      [ThinkingMsg, "*Weather*\n" ++ "```72 F```"] :=
  ⟨rfl, rfl, rfl⟩

/-- Claim C6 as amended: every failure path of the spoken handler, and the
NLU-call and knowledge failures of the full handler, both log a diagnostic
event and send a fixed-text reply; the one exception is the full handler
serialization failure, which is silently discarded. -/
theorem failure_paths_logged (q : String)
    (ws : String → WUnit → Nat → Except Unit String)
    (wf : String → Except Unit QueryResult) :
    ((spokenHandler q WitOutcome.parseErr ws).logs = [LogEv.witError] ∧
      (spokenHandler q WitOutcome.parseErr ws).replies = [NLUUnavailableMsg]) ∧
    ((spokenHandler q WitOutcome.marshalErr ws).logs = [LogEv.marshalError] ∧
      (spokenHandler q WitOutcome.marshalErr ws).replies = [MarshalFailMsg]) ∧
    (∀ doc, ws (refineQuery q doc) WUnit.metric 1000 = Except.error () →
        (spokenHandler q (WitOutcome.ok doc) ws).logs = [LogEv.wolframError] ∧
        (spokenHandler q (WitOutcome.ok doc) ws).replies = [KnowledgeUnavailableMsg]) ∧
    ((fullHandler q WitOutcome.parseErr wf).logs = [LogEv.witError] ∧
      (fullHandler q WitOutcome.parseErr wf).replies = [ThinkingMsg, NLUUnavailableMsg]) ∧
    (wf q = Except.error () →
        (fullHandler q WitOutcome.marshalErr wf).logs = [LogEv.wolframFullError] ∧
        (fullHandler q WitOutcome.marshalErr wf).replies = [ThinkingMsg, FullUnavailableMsg]) := by
  refine ⟨⟨rfl, rfl⟩, ⟨rfl, rfl⟩, ?_, ⟨rfl, rfl⟩, ?_⟩
  · intro doc h
    constructor <;> simp [spokenHandler, spokenQueryStage, h]
  · intro h
    constructor <;> simp [fullHandler, fullQueryStage, h]

/-- Witness for C6 at concrete failing collaborators. -/
theorem failure_paths_logged_witness :
    (spokenHandler "q" (WitOutcome.ok docNoValue) wsErr).logs = [LogEv.wolframError] ∧
    (fullHandler "q" WitOutcome.marshalErr wfErr).replies = [ThinkingMsg, FullUnavailableMsg] :=
  ⟨((failure_paths_logged "q" wsErr wfErr).2.2.1 docNoValue rfl).1,
    ((failure_paths_logged "q" wsErr wfErr).2.2.2.2 rfl).2⟩

/-- Claim C7 counterexample: a non-empty original message with an
empty-string entity value yields an empty refined query, refuting the
non-emptiness invariant in the value-exists case. -/
theorem refineQuery_empty_value :
    ("hi" : String) ≠ "" ∧ refineQuery "hi" docEmptyValue = "" :=
  ⟨by decide, rfl⟩

/-- Claim C7 as amended: the refined query is non-empty whenever the
original message is non-empty and no value exists at the entity path; when a
value exists the refined query is its string form, which can be empty. -/
theorem refineQuery_nonempty_fallback (q : String) (doc : Json)
    (hq : q ≠ "") (h : gjsonGet doc entityPath = none) :
    refineQuery q doc ≠ "" := by
  simpa [refineQuery, h] using hq

/-- Witness for C7 at a concrete fallback input. -/
theorem refineQuery_nonempty_fallback_witness :
    refineQuery "asdkjasd" docNoValue ≠ "" :=
  refineQuery_nonempty_fallback "asdkjasd" docNoValue (by decide) rfl

/-- Claim C8: the spoken handler issues exactly one knowledge call, with the
refined query, the metric unit system and the 1000-character cap, and on
success its reply is the answer string verbatim. -/
theorem spoken_call_and_identity (q : String) (doc : Json)
    (ws : String → WUnit → Nat → Except Unit String) :
    (spokenHandler q (WitOutcome.ok doc) ws).calls =
      [{ query := refineQuery q doc, units := WUnit.metric, maxChars := 1000 }] ∧
    (∀ ans, ws (refineQuery q doc) WUnit.metric 1000 = Except.ok ans →
        (spokenHandler q (WitOutcome.ok doc) ws).replies = [ans]) := by
  constructor
  · exact spokenQueryStage_calls (refineQuery q doc) ws
  · intro ans h
    show (spokenQueryStage (refineQuery q doc) ws).replies = [ans]
    unfold spokenQueryStage
    rw [h]

/-- Witness for C8: the Paris scenario at concrete inputs. -/
theorem spoken_call_and_identity_witness :
    (spokenHandler "capital of france" (WitOutcome.ok docNoValue) wsEx).replies = ["Paris"] :=
  (spoken_call_and_identity "capital of france" docNoValue wsEx).2 "Paris" rfl

/-- Claim C9: in full mode the acknowledgement is always the first reply of
the emitted sequence, whatever the NLU and knowledge outcomes, so it
precedes any final or error reply. -/
theorem fullHandler_ack_first (q : String) (wit : WitOutcome)
    (wf : String → Except Unit QueryResult) :
    ∃ rest, (fullHandler q wit wf).replies = ThinkingMsg :: rest := by
  cases wit with
  | parseErr => exact ⟨[NLUUnavailableMsg], rfl⟩
  | marshalErr => exact fullQueryStage_replies_head q wf
  | ok doc => exact fullQueryStage_replies_head (refineQuery q doc) wf

/-- Claim C10 counterexample: a report passing the usability check whose
second pod has no subpods reaches the out-of-bounds subpod index, so the
access is not safe for every report passing the check. -/
theorem fullHandler_oob_reachable :
    noSubPodRes.Success ≠ "false" ∧ 2 ≤ noSubPodRes.Pods.length ∧
    (fullHandler "q" (WitOutcome.ok Json.null) (fun _ => Except.ok noSubPodRes)).panicked = true :=
  ⟨by decide, by decide, rfl⟩

/-- Claim C10 as amended: the subpod index access is in bounds for every
report passing the usability check whose second pod has at least one subpod;
under that extra assumption the panic branch is unreachable. -/
theorem fullHandler_safe_with_subpod (q : String) (doc : Json) (res : QueryResult)
    (hS : res.Success ≠ "false") (hlen : 2 ≤ res.Pods.length)
    (hsub : ∀ pod, res.Pods.get? 1 = some pod → pod.SubPods ≠ []) :
    (fullHandler q (WitOutcome.ok doc) (fun _ => Except.ok res)).panicked = false := by
  have h1 : 1 < res.Pods.length := by omega
  have hpod : res.Pods.get? 1 = some (res.Pods.get ⟨1, h1⟩) := List.get?_eq_get h1
  have hne : (res.Pods.get ⟨1, h1⟩).SubPods ≠ [] := hsub _ hpod
  have h0 : 0 < (res.Pods.get ⟨1, h1⟩).SubPods.length := List.length_pos.mpr hne
  have hsp : (res.Pods.get ⟨1, h1⟩).SubPods.get? 0 =
      some ((res.Pods.get ⟨1, h1⟩).SubPods.get ⟨0, h0⟩) := List.get?_eq_get h0
  have h := fullQueryStage_format (refineQuery q doc) res
    (res.Pods.get ⟨1, h1⟩) ((res.Pods.get ⟨1, h1⟩).SubPods.get ⟨0, h0⟩)
    hS (by omega) hpod hsp
  show (fullQueryStage (refineQuery q doc) (fun _ => Except.ok res)).panicked = false
  rw [h]

/-- Witness for C10 at a concrete well-formed report. -/
theorem fullHandler_safe_with_subpod_witness :
    (fullHandler "q" (WitOutcome.ok Json.null) (fun _ => Except.ok goodRes)).panicked = false :=
  fullHandler_safe_with_subpod "q" Json.null goodRes (by decide) (by decide)
    (by
      intro pod hp
      have hpw : (some { Title := "Weather", SubPods := [{ Plaintext := "72 F" }] } :
          Option Pod) = some pod := hp
      obtain rfl := Option.some.inj hpw
      decide)

end SlackBot
